import Mathlib

/-!
Shallow embedding of `src/generate_sku_flow_report.py`, a pandas pipeline that
loads four tabular sources, aggregates quantities per SKU, outer-joins the four
aggregates, zero-fills, derives a few columns, reorders columns, sorts by SKU
and writes the result.

Modelling conventions:
* A cell that pandas would hold as `NaN` (missing value) is `none`.
* SKU keys are `Option String` (`none` = null key, kept by `groupby(dropna=False)`).
* Quantities are `ℚ` (exact arithmetic stands in for the numeric column values).
* File reading itself is out of scope (spec §1): each loader takes the tabular
  content (`RawTable`) that `pd.read_excel` / `pd.read_csv` would have produced,
  and performs the column projection the Python loader performs.
* A `RawTable` records which of the two relevant columns (key, quantity) are
  present (`cols`), plus the rows restricted to those two columns; other columns
  of the real files never influence the pipeline and are not modelled.
* `pandas` raises `KeyError` when `groupby(key)[qty]` names an absent column;
  the aggregators therefore return `Except String _`.
* `df.groupby(k, dropna=False)[q].sum()` groups by key (null keys form their own
  group), sums the quantity column per group skipping `NaN` cells (`getD 0`),
  and returns the groups ordered by key; `reset_index` turns that into a
  two-column table. Both group ordering and output ordering place the null key
  last, matching pandas.
* `merge(on="SKU", how="outer")` is modelled for tables whose `SKU` column is
  duplicate-free — which post-`groupby` aggregates always are: each left row is
  matched with the (unique) right row of equal key if any, and unmatched right
  rows are appended in order.
-/

/-- One row of a source table, restricted to the two columns the pipeline may
use: the SKU key cell and the quantity cell (`none` = empty cell / NaN). -/
structure SrcRow where
  key : Option String
  qty : Option ℚ
deriving DecidableEq, Repr

/-- A tabular file (or sheet) as read by pandas: the list of column names
present, and the rows (restricted to the key / quantity cells). -/
structure RawTable where
  cols : List String
  rows : List SrcRow
deriving DecidableEq, Repr

/-- A loaded table after `df[needed].copy()`: which of the two needed columns
survived the projection, and the projected rows. -/
structure DataTable where
  hasKey : Bool
  hasQty : Bool
  rows : List SrcRow
deriving DecidableEq, Repr

/-- Constant `COL_SKU_INBOUND = "Varenummer"`. -/
def COL_SKU_INBOUND : String := "Varenummer"

/-- Constant `COL_QTY_RECEIVED` (received-quantity column of source A). -/
def COL_QTY_RECEIVED : String := "MÃ¦ngde modtaget"

/-- Constant `COL_SKU_PROD = "ItemNumber"`. -/
def COL_SKU_PROD : String := "ItemNumber"

/-- Constant `COL_QTY_PRODUCED = "QuantityProduced"`. -/
def COL_QTY_PRODUCED : String := "QuantityProduced"

/-- Constant `COL_QTY_PACKED_INBOUND = "QuantityPacked"`. -/
def COL_QTY_PACKED_INBOUND : String := "QuantityPacked"

/-- Constant `COL_QTY_PACKED_SHIP = "QuantityPacked"`. -/
def COL_QTY_PACKED_SHIP : String := "QuantityPacked"

/-- Column projection `needed = [c for c in df.columns if c in {keyCol, qtyCol}]; df = df[needed]`:
keep the key / quantity columns when present; a dropped column's cells are gone
(`none`, as pandas `concat` would refill them with NaN). -/
def project (keyCol qtyCol : String) (t : RawTable) : DataTable :=
  { hasKey := decide (keyCol ∈ t.cols)
    hasQty := decide (qtyCol ∈ t.cols)
    rows := t.rows.map fun r =>
      { key := if keyCol ∈ t.cols then r.key else none
        qty := if qtyCol ∈ t.cols then r.qty else none } }

/-- Loader `load_inbound_order`: read source A's sheet and keep `Varenummer`,
`Mængde modtaget`. -/
def load_inbound_order (t : RawTable) : DataTable :=
  project COL_SKU_INBOUND COL_QTY_RECEIVED t

/-- Loader `load_production_consolidated`: read source B and keep `ItemNumber`,
`QuantityProduced`. -/
def load_production_consolidated (t : RawTable) : DataTable :=
  project COL_SKU_PROD COL_QTY_PRODUCED t

/-- Loader `load_inbound_from_production`: read each sheet of source C, project each to
`ItemNumber`, `QuantityPacked`, and concatenate the frames (`pd.concat`,
`ignore_index=True`, no deduplication); an empty sheet list yields the empty
frame with both columns. `concat` of frames with differing columns keeps the
union of the columns, filling absent cells with NaN. -/
def load_inbound_from_production (sheets : List RawTable) : DataTable :=
  let frames := sheets.map (project COL_SKU_PROD COL_QTY_PACKED_INBOUND)
  if frames.isEmpty then
    { hasKey := true, hasQty := true, rows := [] }
  else
    { hasKey := frames.any (·.hasKey)
      hasQty := frames.any (·.hasQty)
      rows := (frames.map (·.rows)).flatten }

/-- Loader `load_shipments_consolidated`: read source D and keep `ItemNumber`,
`QuantityPacked`. -/
def load_shipments_consolidated (t : RawTable) : DataTable :=
  project COL_SKU_PROD COL_QTY_PACKED_SHIP t

/-- A quantity cell as it enters a pandas `sum` (NaN is skipped, i.e. counts 0). -/
def rqty (r : SrcRow) : ℚ := r.qty.getD 0

/-- Sum of the quantity column over the rows of one key group
(`groupby(...)[qty].sum()` for that group's label `k`). -/
def fsum (rows : List SrcRow) (k : Option String) : ℚ :=
  ((rows.filter fun r => decide (r.key = k)).map rqty).sum

/-- Group-label order used by pandas: keys ascending, the null key last. -/
def skuLE : Option String → Option String → Bool
  | _, none => true
  | none, some _ => false
  | some a, some b => decide (a ≤ b)

/-- The distinct key values of a table, in the order `groupby(..., dropna=False)`
(with its default `sort=True`) emits the groups: ascending, null last. -/
def skuKeys (rows : List SrcRow) : List (Option String) :=
  ((rows.map (·.key)).dedup).mergeSort skuLE

/-- The table `df.groupby(keyCol, dropna=False)[qtyCol].sum().reset_index()`: one row per
distinct key value, carrying the group's summed quantity. -/
def groupSum (rows : List SrcRow) : List (Option String × ℚ) :=
  (skuKeys rows).map fun k => (k, fsum rows k)

/-- Aggregator `agg_goods_in`: `groupby(COL_SKU_INBOUND, dropna=False)[COL_QTY_RECEIVED]
.sum().reset_index()`, renamed to (`SKU`, `Goods In`). `groupby` on an absent
column, or selecting an absent quantity column, raises `KeyError`. -/
def agg_goods_in (t : DataTable) : Except String (List (Option String × ℚ)) :=
  if !t.hasKey then .error "KeyError: Varenummer"
  else if !t.hasQty then .error "KeyError: Maengde modtaget"
  else .ok (groupSum t.rows)

/-- Aggregator `agg_moved_to_production`: group by `ItemNumber`, sum `QuantityProduced`,
renamed to (`SKU`, `Moved to Production`). -/
def agg_moved_to_production (t : DataTable) : Except String (List (Option String × ℚ)) :=
  if !t.hasKey then .error "KeyError: ItemNumber"
  else if !t.hasQty then .error "KeyError: QuantityProduced"
  else .ok (groupSum t.rows)

/-- Aggregator `agg_inbound_from_production`: group by `ItemNumber`, sum `QuantityPacked`,
renamed to (`SKU`, `Inbound from Production`). -/
def agg_inbound_from_production (t : DataTable) : Except String (List (Option String × ℚ)) :=
  if !t.hasKey then .error "KeyError: ItemNumber"
  else if !t.hasQty then .error "KeyError: QuantityPacked"
  else .ok (groupSum t.rows)

/-- Aggregator `agg_shipments_out`: group by `ItemNumber`, sum `QuantityPacked`, renamed to
(`SKU`, `Shipments Out`). -/
def agg_shipments_out (t : DataTable) : Except String (List (Option String × ℚ)) :=
  if !t.hasKey then .error "KeyError: ItemNumber"
  else if !t.hasQty then .error "KeyError: QuantityPacked"
  else .ok (groupSum t.rows)

/-- Look a key up in an aggregate table (first matching row's value). On the
duplicate-free tables produced by `groupSum` this is exactly the value the
outer merge aligns with that key, `none` when the key is unmatched. -/
def mlookup (k : Option String) (t : List (Option String × ℚ)) : Option ℚ :=
  (t.find? fun p => decide (p.1 = k)).map (·.2)

/-- Row of `goods_in.merge(moved_to_prod, on="SKU", how="outer")`. -/
structure M2Row where
  sku : Option String
  gIn : Option ℚ
  mov : Option ℚ
deriving DecidableEq, Repr

/-- Row after the second outer merge (`.merge(inbound_from_prod, ...)`). -/
structure M3Row where
  sku : Option String
  gIn : Option ℚ
  mov : Option ℚ
  inb : Option ℚ
deriving DecidableEq, Repr

/-- Row after the third outer merge (`.merge(shipments_out, ...)`). -/
structure M4Row where
  sku : Option String
  gIn : Option ℚ
  mov : Option ℚ
  inb : Option ℚ
  shp : Option ℚ
deriving DecidableEq, Repr

/-- The merge `goods_in.merge(moved_to_prod, on="SKU", how="outer")`: every left row keeps
its value and picks up the matching right value (or NaN); right rows whose key
matched no left key are appended with NaN on the left. -/
def merge_gm (g m : List (Option String × ℚ)) : List M2Row :=
  (g.map fun p => { sku := p.1, gIn := some p.2, mov := mlookup p.1 m }) ++
    ((m.filter fun p => (mlookup p.1 g).isNone).map
      fun p => { sku := p.1, gIn := none, mov := some p.2 })

/-- The merge `.merge(inbound_from_prod, on="SKU", how="outer")` applied to the result of
`merge_gm`. -/
def merge_gmi (t : List M2Row) (i : List (Option String × ℚ)) : List M3Row :=
  (t.map fun r => { sku := r.sku, gIn := r.gIn, mov := r.mov, inb := mlookup r.sku i }) ++
    ((i.filter fun p => (t.find? fun r => decide (r.sku = p.1)).isNone).map
      fun p => { sku := p.1, gIn := none, mov := none, inb := some p.2 })

/-- The merge `.merge(shipments_out, on="SKU", how="outer")` applied to the result of
`merge_gmi`. -/
def merge_gmis (t : List M3Row) (s : List (Option String × ℚ)) : List M4Row :=
  (t.map fun r =>
      { sku := r.sku, gIn := r.gIn, mov := r.mov, inb := r.inb, shp := mlookup r.sku s }) ++
    ((s.filter fun p => (t.find? fun r => decide (r.sku = p.1)).isNone).map
      fun p => { sku := p.1, gIn := none, mov := none, inb := none, shp := some p.2 })

/-- One row of the final report, fields in the fixed output column order.
`serialNo` is the `Serial no.` placeholder (`pd.NA`, never a number). -/
structure ReportRow where
  sku : Option String
  goodsIn : ℚ
  movedToProduction : ℚ
  inProduction : ℚ
  inboundFromProduction : ℚ
  shipmentsOut : ℚ
  serialNo : Option ℚ
  variance : ℚ
  inventoryUltimo : ℚ
deriving DecidableEq, Repr

/-- The post-merge steps of `build_report` on one row: `fillna(0)` on the four
metric columns, then
`In Production = Moved to Production - Inbound from Production`,
`Serial no. = pd.NA`,
`Inventory ULTIMO = Goods In + Inbound from Production - Shipments Out`,
`Variance = 0`. -/
def deriveRow (r : M4Row) : ReportRow :=
  let g := r.gIn.getD 0
  let m := r.mov.getD 0
  let i := r.inb.getD 0
  let s := r.shp.getD 0
  { sku := r.sku
    goodsIn := g
    movedToProduction := m
    inProduction := m - i
    inboundFromProduction := i
    shipmentsOut := s
    serialNo := none
    variance := 0
    inventoryUltimo := g + i - s }

/-- List `desired_cols`, the fixed output column order of `build_report`. -/
def desired_cols : List String :=
  ["SKU", "Goods In", "Moved to Production", "In Production",
   "Inbound from Production", "Shipments Out", "Serial no.",
   "Variance", "Inventory ULTIMO"]

/-- Columns of the merged frame once all four aggregations have succeeded,
after the four assignment statements have added the derived columns. -/
def preReorderCols : List String :=
  ["SKU", "Goods In", "Moved to Production", "Inbound from Production",
   "Shipments Out", "In Production", "Serial no.", "Inventory ULTIMO", "Variance"]

/-- Builder `build_report`: load the four sources, aggregate each, chain the three outer
merges, zero-fill the metric columns, add the derived columns, and reorder to
`existing_cols = [c for c in desired_cols if c in report.columns]`. The result
is the pair (column order, rows); a `KeyError` anywhere aborts the run. -/
def build_report (srcA srcB : RawTable) (srcCsheets : List RawTable) (srcD : RawTable) :
    Except String (List String × List ReportRow) :=
  let inbound_order_df := load_inbound_order srcA
  let production_df := load_production_consolidated srcB
  let inbound_from_prod_df := load_inbound_from_production srcCsheets
  let shipments_df := load_shipments_consolidated srcD
  match agg_goods_in inbound_order_df with
  | .error e => .error e
  | .ok goods_in =>
    match agg_moved_to_production production_df with
    | .error e => .error e
    | .ok moved_to_prod =>
      match agg_inbound_from_production inbound_from_prod_df with
      | .error e => .error e
      | .ok inbound_from_prod =>
        match agg_shipments_out shipments_df with
        | .error e => .error e
        | .ok shipments_out =>
          let merged := merge_gmis
            (merge_gmi (merge_gm goods_in moved_to_prod) inbound_from_prod) shipments_out
          let report := merged.map deriveRow
          let existing_cols := desired_cols.filter fun c => decide (c ∈ preReorderCols)
          .ok (existing_cols, report)

/-- Driver `main` up to the write: build the report and
`sort_values(by=["SKU"], kind="stable")` (ascending, nulls last). -/
def final_report (srcA srcB : RawTable) (srcCsheets : List RawTable) (srcD : RawTable) :
    Except String (List String × List ReportRow) :=
  match build_report srcA srcB srcCsheets srcD with
  | .error e => .error e
  | .ok p => .ok (p.1, p.2.mergeSort fun x y => skuLE x.sku y.sku)

/-- Whether the run produced a report (no `KeyError` aborted it). -/
def isOk {α : Type} : Except String α → Bool
  | .ok _ => true
  | .error _ => false

/-! ### Basic facts about lookups, keys and the group order -/

/-- The key column of an aggregate table. -/
def aggKeys (t : List (Option String × ℚ)) : List (Option String) := t.map (·.1)

/-- Key set produced by one outer merge: all left keys, then the unmatched
right keys in order. -/
def unionKeys (ka kb : List (Option String)) : List (Option String) :=
  ka ++ kb.filter fun k => decide (k ∉ ka)

lemma mem_unionKeys {ka kb : List (Option String)} {k : Option String} :
    k ∈ unionKeys ka kb ↔ k ∈ ka ∨ k ∈ kb := by
  simp only [unionKeys, List.mem_append, List.mem_filter, decide_eq_true_eq]
  by_cases h : k ∈ ka
  · simp [h]
  · simp [h]

lemma nodup_unionKeys {ka kb : List (Option String)} (ha : ka.Nodup) (hb : kb.Nodup) :
    (unionKeys ka kb).Nodup := by
  refine List.Nodup.append ha (hb.filter _) ?_
  intro k hk hk'
  rcases List.mem_filter.mp hk' with ⟨-, h⟩
  exact (decide_eq_true_eq.mp h) hk

lemma mlookup_eq_none {t : List (Option String × ℚ)} {k : Option String}
    (h : k ∉ aggKeys t) : mlookup k t = none := by
  have : t.find? (fun p => decide (p.1 = k)) = none := by
    rw [List.find?_eq_none]
    intro p hp
    simp only [decide_eq_true_eq]
    intro hk
    exact h (hk ▸ List.mem_map_of_mem (·.1) hp)
  simp [mlookup, this]

lemma mlookup_of_mem {t : List (Option String × ℚ)} (hnd : (aggKeys t).Nodup)
    {p : Option String × ℚ} (hp : p ∈ t) : mlookup p.1 t = some p.2 := by
  induction t with
  | nil => cases hp
  | cons q t ih =>
    have hnd' : (aggKeys t).Nodup := (List.nodup_cons.mp hnd).2
    rcases List.mem_cons.mp hp with rfl | hp'
    · simp [mlookup]
    · have hne : ¬ q.1 = p.1 := by
        intro h
        have hq : q.1 ∈ aggKeys t := by
          rw [h]; exact List.mem_map_of_mem (·.1) hp'
        exact (List.nodup_cons.mp hnd).1 hq
      simpa [mlookup, List.find?_cons, hne] using ih hnd' hp'

lemma mlookup_isNone_iff {t : List (Option String × ℚ)} (hnd : (aggKeys t).Nodup)
    {k : Option String} : (mlookup k t).isNone = true ↔ k ∉ aggKeys t := by
  constructor
  · intro h hk
    rcases List.mem_map.mp hk with ⟨p, hp, hpk⟩
    rw [← hpk, mlookup_of_mem hnd hp] at h
    simp at h
  · intro h
    simp [mlookup_eq_none h]

lemma skuLE_trans : ∀ a b c : Option String, skuLE a b → skuLE b c → skuLE a c := by
  intro a b c hab hbc
  cases a <;> cases b <;> cases c <;> simp_all [skuLE]
  exact le_trans hab hbc

lemma skuLE_total : ∀ a b : Option String, skuLE a b || skuLE b a := by
  intro a b
  cases a <;> cases b <;> simp [skuLE]
  exact le_total _ _

lemma skuLE_none_left {y : Option String} (h : skuLE none y = true) : y = none := by
  cases y with
  | none => rfl
  | some b => simp [skuLE] at h

lemma nodup_skuKeys (rows : List SrcRow) : (skuKeys rows).Nodup :=
  ((List.mergeSort_perm _ skuLE).nodup_iff).mpr (List.nodup_dedup _)

lemma mem_skuKeys {rows : List SrcRow} {k : Option String} :
    k ∈ skuKeys rows ↔ k ∈ rows.map (·.key) := by
  rw [skuKeys, (List.mergeSort_perm _ skuLE).mem_iff, List.mem_dedup]

lemma aggKeys_groupSum (rows : List SrcRow) : aggKeys (groupSum rows) = skuKeys rows := by
  rw [aggKeys, groupSum, List.map_map]
  have h : ∀ k ∈ skuKeys rows, ((fun x => x.1) ∘ fun k => (k, fsum rows k)) k = id k :=
    fun k _ => rfl
  rw [List.map_congr_left h, List.map_id]

lemma nodup_aggKeys_groupSum (rows : List SrcRow) : (aggKeys (groupSum rows)).Nodup := by
  rw [aggKeys_groupSum]; exact nodup_skuKeys rows

lemma snd_of_mem_groupSum {rows : List SrcRow} {p : Option String × ℚ}
    (hp : p ∈ groupSum rows) : p.2 = fsum rows p.1 := by
  rcases List.mem_map.mp hp with ⟨k, -, hk⟩
  rw [← hk]

lemma fsum_eq_zero_of_not_mem {rows : List SrcRow} {k : Option String}
    (h : k ∉ rows.map (·.key)) : fsum rows k = 0 := by
  have : rows.filter (fun r => decide (r.key = k)) = [] := by
    rw [List.filter_eq_nil_iff]
    intro r hr
    simp only [decide_eq_true_eq]
    intro hk
    exact h (hk ▸ List.mem_map_of_mem (·.key) hr)
  simp [fsum, this]

lemma mlookup_groupSum_getD (rows : List SrcRow) (k : Option String) :
    (mlookup k (groupSum rows)).getD 0 = fsum rows k := by
  by_cases h : k ∈ skuKeys rows
  · have hp : (k, fsum rows k) ∈ groupSum rows := List.mem_map_of_mem _ h
    rw [mlookup_of_mem (nodup_aggKeys_groupSum rows) hp]
    rfl
  · rw [mlookup_eq_none (by rwa [aggKeys_groupSum])]
    rw [fsum_eq_zero_of_not_mem (fun hm => h (mem_skuKeys.mpr hm))]
    rfl

/-! ### Characterizing the merge chain -/

lemma mlookup_isNone_eq {g : List (Option String × ℚ)} {k : Option String} :
    (mlookup k g).isNone = decide (k ∉ aggKeys g) := by
  rcases h : g.find? fun p => decide (p.1 = k) with _ | p
  · have hall := List.find?_eq_none.mp h
    simp only [decide_eq_true_eq] at hall
    have hx : k ∉ aggKeys g := by
      intro hm
      rcases List.mem_map.mp hm with ⟨q, hq, hqk⟩
      exact hall q hq hqk
    simp [mlookup, h, hx]
  · have hk : p.1 = k := by simpa using List.find?_some h
    have hmem : k ∈ aggKeys g := by
      rw [← hk]
      exact List.mem_map_of_mem (·.1) (List.mem_of_find?_eq_some h)
    simp [mlookup, h, hmem]

lemma find?_key_isNone {ks : List (Option String)} {x : Option String} :
    (ks.find? fun k => decide (k = x)).isNone = decide (x ∉ ks) := by
  rcases h : ks.find? fun k => decide (k = x) with _ | k
  · have hall := List.find?_eq_none.mp h
    simp only [decide_eq_true_eq] at hall
    have hx : x ∉ ks := fun hm => hall x hm rfl
    simp [hx]
  · have hk : k = x := by simpa using List.find?_some h
    have hmem : x ∈ ks := hk ▸ List.mem_of_find?_eq_some h
    simp [hmem]

lemma merge_gm_char {g m : List (Option String × ℚ)}
    (hg : (aggKeys g).Nodup) (hm : (aggKeys m).Nodup) :
    merge_gm g m = (unionKeys (aggKeys g) (aggKeys m)).map
      fun k => { sku := k, gIn := mlookup k g, mov := mlookup k m } := by
  rw [merge_gm, unionKeys, List.map_append]
  congr 1
  · rw [aggKeys, List.map_map]
    refine List.map_congr_left fun p hp => ?_
    simp only [Function.comp]
    rw [mlookup_of_mem hg hp]
  · rw [List.filter_congr fun p (_ : p ∈ m) => mlookup_isNone_eq (g := g) (k := p.1)]
    simp only [aggKeys]
    rw [List.filter_map, List.map_map]
    refine List.map_congr_left fun p hp => ?_
    rcases List.mem_filter.mp hp with ⟨hpm, hpk⟩
    simp only [Function.comp, decide_eq_true_eq] at hpk ⊢
    rw [mlookup_of_mem hm hpm, mlookup_eq_none hpk]

lemma merge_gmi_char {ks : List (Option String)} {φ ψ : Option String → Option ℚ}
    {i : List (Option String × ℚ)}
    (hφ : ∀ k, k ∉ ks → φ k = none) (hψ : ∀ k, k ∉ ks → ψ k = none)
    (hi : (aggKeys i).Nodup) :
    merge_gmi (ks.map fun k => { sku := k, gIn := φ k, mov := ψ k }) i =
      (unionKeys ks (aggKeys i)).map
        fun k => { sku := k, gIn := φ k, mov := ψ k, inb := mlookup k i } := by
  rw [merge_gmi, unionKeys, List.map_append]
  congr 1
  · rw [List.map_map]
    rfl
  · have hpred : ∀ p ∈ i,
        ((ks.map fun k => M2Row.mk k (φ k) (ψ k)).find? fun r => decide (r.sku = p.1)).isNone
          = decide (p.1 ∉ ks) := by
      intro p _
      rw [List.find?_map]
      rw [Option.isNone_map']
      exact find?_key_isNone
    rw [List.filter_congr hpred]
    simp only [aggKeys]
    rw [List.filter_map, List.map_map]
    refine List.map_congr_left fun p hp => ?_
    rcases List.mem_filter.mp hp with ⟨hpm, hpk⟩
    simp only [Function.comp, decide_eq_true_eq] at hpk ⊢
    rw [mlookup_of_mem hi hpm, hφ _ hpk, hψ _ hpk]

lemma merge_gmis_char {ks : List (Option String)} {φ ψ χ : Option String → Option ℚ}
    {s : List (Option String × ℚ)}
    (hφ : ∀ k, k ∉ ks → φ k = none) (hψ : ∀ k, k ∉ ks → ψ k = none)
    (hχ : ∀ k, k ∉ ks → χ k = none)
    (hs : (aggKeys s).Nodup) :
    merge_gmis (ks.map fun k => { sku := k, gIn := φ k, mov := ψ k, inb := χ k }) s =
      (unionKeys ks (aggKeys s)).map
        fun k => { sku := k, gIn := φ k, mov := ψ k, inb := χ k, shp := mlookup k s } := by
  rw [merge_gmis, unionKeys, List.map_append]
  congr 1
  · rw [List.map_map]
    rfl
  · have hpred : ∀ p ∈ s,
        ((ks.map fun k => M3Row.mk k (φ k) (ψ k) (χ k)).find? fun r =>
          decide (r.sku = p.1)).isNone = decide (p.1 ∉ ks) := by
      intro p _
      rw [List.find?_map]
      rw [Option.isNone_map']
      exact find?_key_isNone
    rw [List.filter_congr hpred]
    simp only [aggKeys]
    rw [List.filter_map, List.map_map]
    refine List.map_congr_left fun p hp => ?_
    rcases List.mem_filter.mp hp with ⟨hpm, hpk⟩
    simp only [Function.comp, decide_eq_true_eq] at hpk ⊢
    rw [mlookup_of_mem hs hpm, hφ _ hpk, hψ _ hpk, hχ _ hpk]

/-- The SKU set of the report (in pre-sort order): all keys of the first
aggregate, then the new keys of each following aggregate. -/
def reportKeys (g m i s : List (Option String × ℚ)) : List (Option String) :=
  unionKeys (unionKeys (unionKeys (aggKeys g) (aggKeys m)) (aggKeys i)) (aggKeys s)

lemma merged_char {g m i s : List (Option String × ℚ)}
    (hg : (aggKeys g).Nodup) (hm : (aggKeys m).Nodup)
    (hi : (aggKeys i).Nodup) (hs : (aggKeys s).Nodup) :
    merge_gmis (merge_gmi (merge_gm g m) i) s = (reportKeys g m i s).map
      fun k => { sku := k, gIn := mlookup k g, mov := mlookup k m,
                 inb := mlookup k i, shp := mlookup k s } := by
  rw [merge_gm_char hg hm]
  rw [merge_gmi_char
    (fun k hk => mlookup_eq_none fun h => hk (mem_unionKeys.mpr (.inl h)))
    (fun k hk => mlookup_eq_none fun h => hk (mem_unionKeys.mpr (.inr h))) hi]
  rw [merge_gmis_char
    (fun k hk => mlookup_eq_none fun h => hk (mem_unionKeys.mpr (.inl (mem_unionKeys.mpr (.inl h)))))
    (fun k hk => mlookup_eq_none fun h => hk (mem_unionKeys.mpr (.inl (mem_unionKeys.mpr (.inr h)))))
    (fun k hk => mlookup_eq_none fun h => hk (mem_unionKeys.mpr (.inr h))) hs]
  rfl

/-! ### Mass preservation of group-and-sum -/

lemma sum_if_insert {ks : List (Option String)} {x : Option String} (hnd : ks.Nodup)
    (hx : x ∈ ks) (f : Option String → ℚ) (q : ℚ) :
    (ks.map fun k => if x = k then q + f k else f k).sum = q + (ks.map f).sum := by
  induction ks with
  | nil => cases hx
  | cons a ks ih =>
    rcases List.mem_cons.mp hx with rfl | hx'
    · simp only [List.map_cons, List.sum_cons, if_pos rfl]
      have hrest : ∀ k ∈ ks, (if x = k then q + f k else f k) = f k := by
        intro k hk
        rw [if_neg]
        intro h
        subst h
        exact (List.nodup_cons.mp hnd).1 hk
      rw [List.map_congr_left hrest]
      simp [add_assoc]
    · have hne : ¬ x = a := by
        intro h
        subst h
        exact (List.nodup_cons.mp hnd).1 hx'
      simp only [List.map_cons, List.sum_cons, if_neg hne]
      rw [ih (List.nodup_cons.mp hnd).2 hx']
      ring

lemma sum_fsum {rows : List SrcRow} {ks : List (Option String)} (hnd : ks.Nodup)
    (hcov : ∀ r ∈ rows, r.key ∈ ks) :
    (ks.map fun k => fsum rows k).sum = (rows.map rqty).sum := by
  induction rows with
  | nil => simp [fsum]
  | cons r rows ih =>
    have hcov' : ∀ x ∈ rows, x.key ∈ ks := fun x h => hcov x (List.mem_cons_of_mem r h)
    have hstep : ∀ k ∈ ks, fsum (r :: rows) k
        = if r.key = k then rqty r + fsum rows k else rqty r * 0 + fsum rows k := by
      intro k _
      by_cases h : r.key = k
      · simp [fsum, List.filter_cons, h]
      · simp [fsum, List.filter_cons, h]
    have hstep' : ∀ k ∈ ks, fsum (r :: rows) k
        = if r.key = k then rqty r + fsum rows k else fsum rows k := by
      intro k hk
      rw [hstep k hk]
      by_cases h : r.key = k <;> simp [h]
    rw [List.map_congr_left hstep',
      sum_if_insert hnd (hcov r (List.mem_cons_self r rows)) (fun k => fsum rows k) (rqty r),
      ih hcov']
    simp

/-! ### The success path of the pipeline -/

lemma agg_goods_in_ok {t : DataTable} (h1 : t.hasKey = true) (h2 : t.hasQty = true) :
    agg_goods_in t = .ok (groupSum t.rows) := by
  simp [agg_goods_in, h1, h2]

lemma agg_moved_to_production_ok {t : DataTable} (h1 : t.hasKey = true) (h2 : t.hasQty = true) :
    agg_moved_to_production t = .ok (groupSum t.rows) := by
  simp [agg_moved_to_production, h1, h2]

lemma agg_inbound_from_production_ok {t : DataTable} (h1 : t.hasKey = true)
    (h2 : t.hasQty = true) : agg_inbound_from_production t = .ok (groupSum t.rows) := by
  simp [agg_inbound_from_production, h1, h2]

lemma agg_shipments_out_ok {t : DataTable} (h1 : t.hasKey = true) (h2 : t.hasQty = true) :
    agg_shipments_out t = .ok (groupSum t.rows) := by
  simp [agg_shipments_out, h1, h2]

/-- The rows `build_report` produces when every aggregation succeeds: one row
per key of the merged table, metrics zero-filled from the aggregate lookups,
derived columns computed. -/
def okRows (g m i s : List (Option String × ℚ)) : List ReportRow :=
  (reportKeys g m i s).map fun k =>
    deriveRow { sku := k, gIn := mlookup k g, mov := mlookup k m,
                inb := mlookup k i, shp := mlookup k s }

lemma build_report_eq (srcA srcB : RawTable) (srcCsheets : List RawTable) (srcD : RawTable)
    (hA1 : (load_inbound_order srcA).hasKey = true)
    (hA2 : (load_inbound_order srcA).hasQty = true)
    (hB1 : (load_production_consolidated srcB).hasKey = true)
    (hB2 : (load_production_consolidated srcB).hasQty = true)
    (hC1 : (load_inbound_from_production srcCsheets).hasKey = true)
    (hC2 : (load_inbound_from_production srcCsheets).hasQty = true)
    (hD1 : (load_shipments_consolidated srcD).hasKey = true)
    (hD2 : (load_shipments_consolidated srcD).hasQty = true) :
    build_report srcA srcB srcCsheets srcD =
      .ok (desired_cols,
        okRows (groupSum (load_inbound_order srcA).rows)
               (groupSum (load_production_consolidated srcB).rows)
               (groupSum (load_inbound_from_production srcCsheets).rows)
               (groupSum (load_shipments_consolidated srcD).rows)) := by
  have hcols : desired_cols.filter (fun c => decide (c ∈ preReorderCols)) = desired_cols := by
    decide
  simp only [build_report, agg_goods_in_ok hA1 hA2, agg_moved_to_production_ok hB1 hB2,
    agg_inbound_from_production_ok hC1 hC2, agg_shipments_out_ok hD1 hD2, hcols]
  rw [merged_char (nodup_aggKeys_groupSum _) (nodup_aggKeys_groupSum _)
    (nodup_aggKeys_groupSum _) (nodup_aggKeys_groupSum _), List.map_map]
  rfl

lemma final_report_eq (srcA srcB : RawTable) (srcCsheets : List RawTable) (srcD : RawTable)
    (hA1 : (load_inbound_order srcA).hasKey = true)
    (hA2 : (load_inbound_order srcA).hasQty = true)
    (hB1 : (load_production_consolidated srcB).hasKey = true)
    (hB2 : (load_production_consolidated srcB).hasQty = true)
    (hC1 : (load_inbound_from_production srcCsheets).hasKey = true)
    (hC2 : (load_inbound_from_production srcCsheets).hasQty = true)
    (hD1 : (load_shipments_consolidated srcD).hasKey = true)
    (hD2 : (load_shipments_consolidated srcD).hasQty = true) :
    final_report srcA srcB srcCsheets srcD =
      .ok (desired_cols,
        (okRows (groupSum (load_inbound_order srcA).rows)
                (groupSum (load_production_consolidated srcB).rows)
                (groupSum (load_inbound_from_production srcCsheets).rows)
                (groupSum (load_shipments_consolidated srcD).rows)).mergeSort
          fun x y => skuLE x.sku y.sku) := by
  rw [final_report, build_report_eq srcA srcB srcCsheets srcD hA1 hA2 hB1 hB2 hC1 hC2 hD1 hD2]

lemma mem_reportKeys {g m i s : List (Option String × ℚ)} {k : Option String} :
    k ∈ reportKeys g m i s ↔
      k ∈ aggKeys g ∨ k ∈ aggKeys m ∨ k ∈ aggKeys i ∨ k ∈ aggKeys s := by
  simp [reportKeys, mem_unionKeys, or_assoc]

lemma nodup_reportKeys {g m i s : List (Option String × ℚ)}
    (hg : (aggKeys g).Nodup) (hm : (aggKeys m).Nodup)
    (hi : (aggKeys i).Nodup) (hs : (aggKeys s).Nodup) :
    (reportKeys g m i s).Nodup :=
  nodup_unionKeys (nodup_unionKeys (nodup_unionKeys hg hm) hi) hs

/-! ### Loader facts -/

lemma project_hasKey {t : RawTable} {kc qc : String} (h : kc ∈ t.cols) :
    (project kc qc t).hasKey = true := by
  simp [project, h]

lemma project_hasQty {t : RawTable} {kc qc : String} (h : qc ∈ t.cols) :
    (project kc qc t).hasQty = true := by
  simp [project, h]

lemma project_rows_of_cols {t : RawTable} {kc qc : String} (h1 : kc ∈ t.cols)
    (h2 : qc ∈ t.cols) : (project kc qc t).rows = t.rows := by
  simp only [project, if_pos h1, if_pos h2]
  have h : ∀ r ∈ t.rows, ({ key := r.key, qty := r.qty } : SrcRow) = id r := fun r _ => rfl
  rw [List.map_congr_left h, List.map_id]

lemma loadC_hasKey {sheets : List RawTable}
    (h : ∀ sh ∈ sheets, COL_SKU_PROD ∈ sh.cols) :
    (load_inbound_from_production sheets).hasKey = true := by
  cases sheets with
  | nil => rfl
  | cons sh rest =>
    simp only [load_inbound_from_production, List.map_cons, List.isEmpty_cons,
      if_neg Bool.false_ne_true]
    refine List.any_eq_true.mpr ⟨project COL_SKU_PROD COL_QTY_PACKED_INBOUND sh, ?_, ?_⟩
    · exact List.mem_cons_self _ _
    · exact project_hasKey (h sh (List.mem_cons_self sh rest))

lemma loadC_hasQty {sheets : List RawTable}
    (h : ∀ sh ∈ sheets, COL_QTY_PACKED_INBOUND ∈ sh.cols) :
    (load_inbound_from_production sheets).hasQty = true := by
  cases sheets with
  | nil => rfl
  | cons sh rest =>
    simp only [load_inbound_from_production, List.map_cons, List.isEmpty_cons,
      if_neg Bool.false_ne_true]
    refine List.any_eq_true.mpr ⟨project COL_SKU_PROD COL_QTY_PACKED_INBOUND sh, ?_, ?_⟩
    · exact List.mem_cons_self _ _
    · exact project_hasQty (h sh (List.mem_cons_self sh rest))

lemma loadC_rows {sheets : List RawTable}
    (h : ∀ sh ∈ sheets, COL_SKU_PROD ∈ sh.cols ∧ COL_QTY_PACKED_INBOUND ∈ sh.cols) :
    (load_inbound_from_production sheets).rows = (sheets.map (·.rows)).flatten := by
  cases sheets with
  | nil => rfl
  | cons sh rest =>
    simp only [load_inbound_from_production, List.map_cons, List.isEmpty_cons,
      if_neg Bool.false_ne_true]
    congr 1
    congr 1
    · exact project_rows_of_cols (h sh (List.mem_cons_self sh rest)).1
        (h sh (List.mem_cons_self sh rest)).2
    · rw [List.map_map]
      refine List.map_congr_left fun x hx => ?_
      have hx' := h x (List.mem_cons_of_mem sh hx)
      simp only [Function.comp]
      exact project_rows_of_cols hx'.1 hx'.2

/-! ### The shape of a successful report -/

lemma okRows_fields {g m i s : List (Option String × ℚ)} {r : ReportRow}
    (hr : r ∈ okRows g m i s) :
    r.goodsIn = (mlookup r.sku g).getD 0 ∧
    r.movedToProduction = (mlookup r.sku m).getD 0 ∧
    r.inboundFromProduction = (mlookup r.sku i).getD 0 ∧
    r.shipmentsOut = (mlookup r.sku s).getD 0 ∧
    r.inProduction = r.movedToProduction - r.inboundFromProduction ∧
    r.inventoryUltimo = r.goodsIn + r.inboundFromProduction - r.shipmentsOut ∧
    r.serialNo = none ∧ r.variance = 0 := by
  rcases List.mem_map.mp hr with ⟨k, hk, hkr⟩
  subst hkr
  exact ⟨rfl, rfl, rfl, rfl, rfl, rfl, rfl, rfl⟩

lemma map_sku_okRows (g m i s : List (Option String × ℚ)) :
    (okRows g m i s).map (·.sku) = reportKeys g m i s := by
  rw [okRows, List.map_map]
  have h : ∀ k ∈ reportKeys g m i s,
      (((·.sku) : ReportRow → Option String) ∘ fun k =>
        deriveRow { sku := k, gIn := mlookup k g, mov := mlookup k m,
                    inb := mlookup k i, shp := mlookup k s }) k = id k := fun k _ => rfl
  rw [List.map_congr_left h, List.map_id]

lemma final_report_inv (srcA srcB : RawTable) (srcCsheets : List RawTable) (srcD : RawTable)
    (hA1 : COL_SKU_INBOUND ∈ srcA.cols) (hA2 : COL_QTY_RECEIVED ∈ srcA.cols)
    (hB1 : COL_SKU_PROD ∈ srcB.cols) (hB2 : COL_QTY_PRODUCED ∈ srcB.cols)
    (hC : ∀ sh ∈ srcCsheets, COL_SKU_PROD ∈ sh.cols ∧ COL_QTY_PACKED_INBOUND ∈ sh.cols)
    (hD1 : COL_SKU_PROD ∈ srcD.cols) (hD2 : COL_QTY_PACKED_SHIP ∈ srcD.cols)
    {cols : List String} {rows : List ReportRow}
    (hok : final_report srcA srcB srcCsheets srcD = .ok (cols, rows)) :
    cols = desired_cols ∧
    rows = (okRows (groupSum (load_inbound_order srcA).rows)
                   (groupSum (load_production_consolidated srcB).rows)
                   (groupSum (load_inbound_from_production srcCsheets).rows)
                   (groupSum (load_shipments_consolidated srcD).rows)).mergeSort
      (fun x y => skuLE x.sku y.sku) := by
  rw [final_report_eq srcA srcB srcCsheets srcD
    (project_hasKey hA1) (project_hasQty hA2)
    (project_hasKey hB1) (project_hasQty hB2)
    (loadC_hasKey fun sh h => (hC sh h).1) (loadC_hasQty fun sh h => (hC sh h).2)
    (project_hasKey hD1) (project_hasQty hD2)] at hok
  have hpair := Except.ok.inj hok
  exact ⟨(congrArg Prod.fst hpair).symm, (congrArg Prod.snd hpair).symm⟩

lemma sorted_okRows_perm (g m i s : List (Option String × ℚ)) :
    List.Perm ((okRows g m i s).mergeSort fun x y => skuLE x.sku y.sku) (okRows g m i s) :=
  List.mergeSort_perm _ _

lemma sorted_okRows_sku_perm (g m i s : List (Option String × ℚ)) :
    List.Perm (((okRows g m i s).mergeSort fun x y => skuLE x.sku y.sku).map (·.sku))
      (reportKeys g m i s) := by
  have h := (sorted_okRows_perm g m i s).map (·.sku)
  rwa [map_sku_okRows] at h

/-- C1: on any four inputs in which every needed column is present, the final
report's SKU column is duplicate-free and is exactly the union of the SKUs of
the four aggregate tables (no duplicates, no drops), and every row carries a
defined, zero-filled numeric value for each of the four base metric columns
(the value the corresponding aggregate holds for that SKU, defaulted to 0). -/
theorem C1_report_is_union_of_skus
    (srcA srcB : RawTable) (srcCsheets : List RawTable) (srcD : RawTable)
    (hA1 : COL_SKU_INBOUND ∈ srcA.cols) (hA2 : COL_QTY_RECEIVED ∈ srcA.cols)
    (hB1 : COL_SKU_PROD ∈ srcB.cols) (hB2 : COL_QTY_PRODUCED ∈ srcB.cols)
    (hC : ∀ sh ∈ srcCsheets, COL_SKU_PROD ∈ sh.cols ∧ COL_QTY_PACKED_INBOUND ∈ sh.cols)
    (hD1 : COL_SKU_PROD ∈ srcD.cols) (hD2 : COL_QTY_PACKED_SHIP ∈ srcD.cols)
    (cols : List String) (rows : List ReportRow)
    (hok : final_report srcA srcB srcCsheets srcD = .ok (cols, rows)) :
    (rows.map (·.sku)).Nodup ∧
    (∀ k : Option String, k ∈ rows.map (·.sku) ↔
      (k ∈ aggKeys (groupSum (load_inbound_order srcA).rows) ∨
       k ∈ aggKeys (groupSum (load_production_consolidated srcB).rows) ∨
       k ∈ aggKeys (groupSum (load_inbound_from_production srcCsheets).rows) ∨
       k ∈ aggKeys (groupSum (load_shipments_consolidated srcD).rows))) ∧
    (∀ r ∈ rows,
      r.goodsIn = (mlookup r.sku (groupSum (load_inbound_order srcA).rows)).getD 0 ∧
      r.movedToProduction =
        (mlookup r.sku (groupSum (load_production_consolidated srcB).rows)).getD 0 ∧
      r.inboundFromProduction =
        (mlookup r.sku (groupSum (load_inbound_from_production srcCsheets).rows)).getD 0 ∧
      r.shipmentsOut =
        (mlookup r.sku (groupSum (load_shipments_consolidated srcD).rows)).getD 0) := by
  obtain ⟨-, hrows⟩ :=
    final_report_inv srcA srcB srcCsheets srcD hA1 hA2 hB1 hB2 hC hD1 hD2 hok
  subst hrows
  refine ⟨?_, ?_, ?_⟩
  · exact ((sorted_okRows_sku_perm _ _ _ _).nodup_iff).mpr
      (nodup_reportKeys (nodup_aggKeys_groupSum _) (nodup_aggKeys_groupSum _)
        (nodup_aggKeys_groupSum _) (nodup_aggKeys_groupSum _))
  · intro k
    rw [(sorted_okRows_sku_perm _ _ _ _).mem_iff, mem_reportKeys]
  · intro r hr
    have hr' := (sorted_okRows_perm _ _ _ _).mem_iff.mp hr
    obtain ⟨h1, h2, h3, h4, -⟩ := okRows_fields hr'
    exact ⟨h1, h2, h3, h4⟩

/-- C3: in every row of the final report, `In Production` equals
`Moved to Production` minus `Inbound from Production`, computed over the
zero-filled metric values; the difference is taken in `ℚ`, so negative results
are representable and nothing clamps or rejects them. -/
theorem C3_in_production_formula
    (srcA srcB : RawTable) (srcCsheets : List RawTable) (srcD : RawTable)
    (hA1 : COL_SKU_INBOUND ∈ srcA.cols) (hA2 : COL_QTY_RECEIVED ∈ srcA.cols)
    (hB1 : COL_SKU_PROD ∈ srcB.cols) (hB2 : COL_QTY_PRODUCED ∈ srcB.cols)
    (hC : ∀ sh ∈ srcCsheets, COL_SKU_PROD ∈ sh.cols ∧ COL_QTY_PACKED_INBOUND ∈ sh.cols)
    (hD1 : COL_SKU_PROD ∈ srcD.cols) (hD2 : COL_QTY_PACKED_SHIP ∈ srcD.cols)
    (cols : List String) (rows : List ReportRow)
    (hok : final_report srcA srcB srcCsheets srcD = .ok (cols, rows)) :
    ∀ r ∈ rows, r.inProduction = r.movedToProduction - r.inboundFromProduction := by
  obtain ⟨-, hrows⟩ :=
    final_report_inv srcA srcB srcCsheets srcD hA1 hA2 hB1 hB2 hC hD1 hD2 hok
  subst hrows
  intro r hr
  exact (okRows_fields ((sorted_okRows_perm _ _ _ _).mem_iff.mp hr)).2.2.2.2.1

/-- C4: in every row of the final report, `Inventory ULTIMO` equals
`Goods In` plus `Inbound from Production` minus `Shipments Out`, computed over
the zero-filled metric values; the subtraction is in `ℚ`, so negative ending
inventory is representable and not an error. -/
theorem C4_inventory_ultimo_formula
    (srcA srcB : RawTable) (srcCsheets : List RawTable) (srcD : RawTable)
    (hA1 : COL_SKU_INBOUND ∈ srcA.cols) (hA2 : COL_QTY_RECEIVED ∈ srcA.cols)
    (hB1 : COL_SKU_PROD ∈ srcB.cols) (hB2 : COL_QTY_PRODUCED ∈ srcB.cols)
    (hC : ∀ sh ∈ srcCsheets, COL_SKU_PROD ∈ sh.cols ∧ COL_QTY_PACKED_INBOUND ∈ sh.cols)
    (hD1 : COL_SKU_PROD ∈ srcD.cols) (hD2 : COL_QTY_PACKED_SHIP ∈ srcD.cols)
    (cols : List String) (rows : List ReportRow)
    (hok : final_report srcA srcB srcCsheets srcD = .ok (cols, rows)) :
    ∀ r ∈ rows, r.inventoryUltimo = r.goodsIn + r.inboundFromProduction - r.shipmentsOut := by
  obtain ⟨-, hrows⟩ :=
    final_report_inv srcA srcB srcCsheets srcD hA1 hA2 hB1 hB2 hC hD1 hD2 hok
  subst hrows
  intro r hr
  exact (okRows_fields ((sorted_okRows_perm _ _ _ _).mem_iff.mp hr)).2.2.2.2.2.1

/-- C5: after the outer join, every absent value in each of the four metric
columns is replaced with zero while matched values are kept; and no other
column is zero-filled — the `Serial no.` placeholder stays null, it is never
turned into 0. -/
theorem C5_fillna_only_metric_columns
    (srcA srcB : RawTable) (srcCsheets : List RawTable) (srcD : RawTable)
    (hA1 : COL_SKU_INBOUND ∈ srcA.cols) (hA2 : COL_QTY_RECEIVED ∈ srcA.cols)
    (hB1 : COL_SKU_PROD ∈ srcB.cols) (hB2 : COL_QTY_PRODUCED ∈ srcB.cols)
    (hC : ∀ sh ∈ srcCsheets, COL_SKU_PROD ∈ sh.cols ∧ COL_QTY_PACKED_INBOUND ∈ sh.cols)
    (hD1 : COL_SKU_PROD ∈ srcD.cols) (hD2 : COL_QTY_PACKED_SHIP ∈ srcD.cols)
    (cols : List String) (rows : List ReportRow)
    (hok : final_report srcA srcB srcCsheets srcD = .ok (cols, rows)) :
    ∀ r ∈ rows,
      (r.sku ∉ aggKeys (groupSum (load_inbound_order srcA).rows) → r.goodsIn = 0) ∧
      (∀ v, (r.sku, v) ∈ groupSum (load_inbound_order srcA).rows → r.goodsIn = v) ∧
      (r.sku ∉ aggKeys (groupSum (load_production_consolidated srcB).rows) →
        r.movedToProduction = 0) ∧
      (∀ v, (r.sku, v) ∈ groupSum (load_production_consolidated srcB).rows →
        r.movedToProduction = v) ∧
      (r.sku ∉ aggKeys (groupSum (load_inbound_from_production srcCsheets).rows) →
        r.inboundFromProduction = 0) ∧
      (∀ v, (r.sku, v) ∈ groupSum (load_inbound_from_production srcCsheets).rows →
        r.inboundFromProduction = v) ∧
      (r.sku ∉ aggKeys (groupSum (load_shipments_consolidated srcD).rows) →
        r.shipmentsOut = 0) ∧
      (∀ v, (r.sku, v) ∈ groupSum (load_shipments_consolidated srcD).rows →
        r.shipmentsOut = v) ∧
      r.serialNo = none := by
  obtain ⟨-, hrows⟩ :=
    final_report_inv srcA srcB srcCsheets srcD hA1 hA2 hB1 hB2 hC hD1 hD2 hok
  subst hrows
  intro r hr
  obtain ⟨h1, h2, h3, h4, -, -, hna, -⟩ :=
    okRows_fields ((sorted_okRows_perm _ _ _ _).mem_iff.mp hr)
  refine ⟨?_, ?_, ?_, ?_, ?_, ?_, ?_, ?_, hna⟩
  · intro hk; rw [h1, mlookup_eq_none hk]; rfl
  · intro v hv
    rw [h1, mlookup_of_mem (nodup_aggKeys_groupSum _) hv]; rfl
  · intro hk; rw [h2, mlookup_eq_none hk]; rfl
  · intro v hv
    rw [h2, mlookup_of_mem (nodup_aggKeys_groupSum _) hv]; rfl
  · intro hk; rw [h3, mlookup_eq_none hk]; rfl
  · intro v hv
    rw [h3, mlookup_of_mem (nodup_aggKeys_groupSum _) hv]; rfl
  · intro hk; rw [h4, mlookup_eq_none hk]; rfl
  · intro v hv
    rw [h4, mlookup_of_mem (nodup_aggKeys_groupSum _) hv]; rfl

lemma report_metric_sum {rowsSrc : List SrcRow} {ks : List (Option String)}
    (hnd : ks.Nodup) (hsub : ∀ k, k ∈ aggKeys (groupSum rowsSrc) → k ∈ ks) :
    (ks.map fun k => (mlookup k (groupSum rowsSrc)).getD 0).sum = (rowsSrc.map rqty).sum := by
  have h : ∀ k ∈ ks, (mlookup k (groupSum rowsSrc)).getD 0 = fsum rowsSrc k :=
    fun k _ => mlookup_groupSum_getD rowsSrc k
  rw [List.map_congr_left h]
  refine sum_fsum hnd fun r hr => ?_
  apply hsub
  rw [aggKeys_groupSum]
  exact mem_skuKeys.mpr (List.mem_map_of_mem (·.key) hr)

/-- C7: for every metric column of the final report, the sum of the per-SKU
values equals the sum of the corresponding raw quantity column of its source
(for the two-sheet source, the total across both sheets): load, aggregate,
outer join and zero-fill preserve each metric's total mass. -/
theorem C7_mass_preservation
    (srcA srcB : RawTable) (srcCsheets : List RawTable) (srcD : RawTable)
    (hA1 : COL_SKU_INBOUND ∈ srcA.cols) (hA2 : COL_QTY_RECEIVED ∈ srcA.cols)
    (hB1 : COL_SKU_PROD ∈ srcB.cols) (hB2 : COL_QTY_PRODUCED ∈ srcB.cols)
    (hC : ∀ sh ∈ srcCsheets, COL_SKU_PROD ∈ sh.cols ∧ COL_QTY_PACKED_INBOUND ∈ sh.cols)
    (hD1 : COL_SKU_PROD ∈ srcD.cols) (hD2 : COL_QTY_PACKED_SHIP ∈ srcD.cols)
    (cols : List String) (rows : List ReportRow)
    (hok : final_report srcA srcB srcCsheets srcD = .ok (cols, rows)) :
    (rows.map (·.goodsIn)).sum = (srcA.rows.map rqty).sum ∧
    (rows.map (·.movedToProduction)).sum = (srcB.rows.map rqty).sum ∧
    (rows.map (·.inboundFromProduction)).sum =
      (srcCsheets.map fun sh => (sh.rows.map rqty).sum).sum ∧
    (rows.map (·.shipmentsOut)).sum = (srcD.rows.map rqty).sum := by
  obtain ⟨-, hrows⟩ :=
    final_report_inv srcA srcB srcCsheets srcD hA1 hA2 hB1 hB2 hC hD1 hD2 hok
  subst hrows
  have hnd := nodup_reportKeys
    (nodup_aggKeys_groupSum (load_inbound_order srcA).rows)
    (nodup_aggKeys_groupSum (load_production_consolidated srcB).rows)
    (nodup_aggKeys_groupSum (load_inbound_from_production srcCsheets).rows)
    (nodup_aggKeys_groupSum (load_shipments_consolidated srcD).rows)
  refine ⟨?_, ?_, ?_, ?_⟩
  · rw [((sorted_okRows_perm _ _ _ _).map (·.goodsIn)).sum_eq]
    have e : (okRows (groupSum (load_inbound_order srcA).rows)
        (groupSum (load_production_consolidated srcB).rows)
        (groupSum (load_inbound_from_production srcCsheets).rows)
        (groupSum (load_shipments_consolidated srcD).rows)).map (·.goodsIn)
        = (reportKeys (groupSum (load_inbound_order srcA).rows)
            (groupSum (load_production_consolidated srcB).rows)
            (groupSum (load_inbound_from_production srcCsheets).rows)
            (groupSum (load_shipments_consolidated srcD).rows)).map
          fun k => (mlookup k (groupSum (load_inbound_order srcA).rows)).getD 0 := by
      rw [okRows, List.map_map]
      rfl
    rw [e, report_metric_sum hnd fun k hk => mem_reportKeys.mpr (.inl hk),
      load_inbound_order, project_rows_of_cols hA1 hA2]
  · rw [((sorted_okRows_perm _ _ _ _).map (·.movedToProduction)).sum_eq]
    have e : (okRows (groupSum (load_inbound_order srcA).rows)
        (groupSum (load_production_consolidated srcB).rows)
        (groupSum (load_inbound_from_production srcCsheets).rows)
        (groupSum (load_shipments_consolidated srcD).rows)).map (·.movedToProduction)
        = (reportKeys (groupSum (load_inbound_order srcA).rows)
            (groupSum (load_production_consolidated srcB).rows)
            (groupSum (load_inbound_from_production srcCsheets).rows)
            (groupSum (load_shipments_consolidated srcD).rows)).map
          fun k => (mlookup k (groupSum (load_production_consolidated srcB).rows)).getD 0 := by
      rw [okRows, List.map_map]
      rfl
    rw [e, report_metric_sum hnd fun k hk => mem_reportKeys.mpr (.inr (.inl hk)),
      load_production_consolidated, project_rows_of_cols hB1 hB2]
  · rw [((sorted_okRows_perm _ _ _ _).map (·.inboundFromProduction)).sum_eq]
    have e : (okRows (groupSum (load_inbound_order srcA).rows)
        (groupSum (load_production_consolidated srcB).rows)
        (groupSum (load_inbound_from_production srcCsheets).rows)
        (groupSum (load_shipments_consolidated srcD).rows)).map (·.inboundFromProduction)
        = (reportKeys (groupSum (load_inbound_order srcA).rows)
            (groupSum (load_production_consolidated srcB).rows)
            (groupSum (load_inbound_from_production srcCsheets).rows)
            (groupSum (load_shipments_consolidated srcD).rows)).map
          fun k =>
            (mlookup k (groupSum (load_inbound_from_production srcCsheets).rows)).getD 0 := by
      rw [okRows, List.map_map]
      rfl
    rw [e, report_metric_sum hnd fun k hk => mem_reportKeys.mpr (.inr (.inr (.inl hk)))]
    rw [loadC_rows hC, List.map_flatten, List.sum_flatten, List.map_map, List.map_map]
    rfl
  · rw [((sorted_okRows_perm _ _ _ _).map (·.shipmentsOut)).sum_eq]
    have e : (okRows (groupSum (load_inbound_order srcA).rows)
        (groupSum (load_production_consolidated srcB).rows)
        (groupSum (load_inbound_from_production srcCsheets).rows)
        (groupSum (load_shipments_consolidated srcD).rows)).map (·.shipmentsOut)
        = (reportKeys (groupSum (load_inbound_order srcA).rows)
            (groupSum (load_production_consolidated srcB).rows)
            (groupSum (load_inbound_from_production srcCsheets).rows)
            (groupSum (load_shipments_consolidated srcD).rows)).map
          fun k => (mlookup k (groupSum (load_shipments_consolidated srcD).rows)).getD 0 := by
      rw [okRows, List.map_map]
      rfl
    rw [e, report_metric_sum hnd fun k hk => mem_reportKeys.mpr (.inr (.inr (.inr hk))),
      load_shipments_consolidated, project_rows_of_cols hD1 hD2]

/-- C9: the written report's rows are ordered ascending by SKU (the stable sort
of the driver; ties are impossible because the SKU column is duplicate-free),
and the column order is exactly SKU, Goods In, Moved to Production,
In Production, Inbound from Production, Shipments Out, Serial no., Variance,
Inventory ULTIMO. -/
theorem C9_sort_and_column_order
    (srcA srcB : RawTable) (srcCsheets : List RawTable) (srcD : RawTable)
    (hA1 : COL_SKU_INBOUND ∈ srcA.cols) (hA2 : COL_QTY_RECEIVED ∈ srcA.cols)
    (hB1 : COL_SKU_PROD ∈ srcB.cols) (hB2 : COL_QTY_PRODUCED ∈ srcB.cols)
    (hC : ∀ sh ∈ srcCsheets, COL_SKU_PROD ∈ sh.cols ∧ COL_QTY_PACKED_INBOUND ∈ sh.cols)
    (hD1 : COL_SKU_PROD ∈ srcD.cols) (hD2 : COL_QTY_PACKED_SHIP ∈ srcD.cols)
    (cols : List String) (rows : List ReportRow)
    (hok : final_report srcA srcB srcCsheets srcD = .ok (cols, rows)) :
    cols = ["SKU", "Goods In", "Moved to Production", "In Production",
            "Inbound from Production", "Shipments Out", "Serial no.",
            "Variance", "Inventory ULTIMO"] ∧
    List.Pairwise (fun x y : ReportRow => skuLE x.sku y.sku = true) rows ∧
    (rows.map (·.sku)).Nodup := by
  obtain ⟨hcols, hrows⟩ :=
    final_report_inv srcA srcB srcCsheets srcD hA1 hA2 hB1 hB2 hC hD1 hD2 hok
  subst hrows
  refine ⟨hcols, ?_, ?_⟩
  · exact List.sorted_mergeSort
      (fun a b c hab hbc => skuLE_trans a.sku b.sku c.sku hab hbc)
      (fun a b => skuLE_total a.sku b.sku) _
  · exact ((sorted_okRows_sku_perm _ _ _ _).nodup_iff).mpr
      (nodup_reportKeys (nodup_aggKeys_groupSum _) (nodup_aggKeys_groupSum _)
        (nodup_aggKeys_groupSum _) (nodup_aggKeys_groupSum _))

/-- C10: a null SKU key in any source row yields a null-SKU row in the final
report, and after sorting that row sits after every non-null SKU (it can only
occupy the last position); when no source row has a null key, every report row
has a defined non-null SKU. -/
theorem C10_null_key_group_last
    (srcA srcB : RawTable) (srcCsheets : List RawTable) (srcD : RawTable)
    (hA1 : COL_SKU_INBOUND ∈ srcA.cols) (hA2 : COL_QTY_RECEIVED ∈ srcA.cols)
    (hB1 : COL_SKU_PROD ∈ srcB.cols) (hB2 : COL_QTY_PRODUCED ∈ srcB.cols)
    (hC : ∀ sh ∈ srcCsheets, COL_SKU_PROD ∈ sh.cols ∧ COL_QTY_PACKED_INBOUND ∈ sh.cols)
    (hD1 : COL_SKU_PROD ∈ srcD.cols) (hD2 : COL_QTY_PACKED_SHIP ∈ srcD.cols)
    (cols : List String) (rows : List ReportRow)
    (hok : final_report srcA srcB srcCsheets srcD = .ok (cols, rows)) :
    ((none ∈ rows.map (·.sku)) ↔
      none ∈ (srcA.rows ++ srcB.rows ++ (srcCsheets.map (·.rows)).flatten ++
        srcD.rows).map (·.key)) ∧
    (∀ (j : ℕ) (hj : j < rows.length), rows[j].sku = none → j = rows.length - 1) ∧
    ((none ∉ (srcA.rows ++ srcB.rows ++ (srcCsheets.map (·.rows)).flatten ++
        srcD.rows).map (·.key)) →
      ∀ r ∈ rows, r.sku ≠ none) := by
  obtain ⟨-, hrows⟩ :=
    final_report_inv srcA srcB srcCsheets srcD hA1 hA2 hB1 hB2 hC hD1 hD2 hok
  have hmem : ∀ k : Option String, k ∈ rows.map (·.sku) ↔
      k ∈ (srcA.rows ++ srcB.rows ++ (srcCsheets.map (·.rows)).flatten ++
        srcD.rows).map (·.key) := by
    intro k
    rw [hrows, (sorted_okRows_sku_perm _ _ _ _).mem_iff, mem_reportKeys]
    simp only [aggKeys_groupSum, mem_skuKeys]
    rw [load_inbound_order, project_rows_of_cols hA1 hA2,
      load_production_consolidated, project_rows_of_cols hB1 hB2, loadC_rows hC,
      load_shipments_consolidated, project_rows_of_cols hD1 hD2]
    simp only [List.map_append, List.mem_append]
    tauto
  refine ⟨hmem none, ?_, ?_⟩
  · intro j hj hnone
    have hsorted : List.Pairwise (fun x y : ReportRow => skuLE x.sku y.sku = true) rows := by
      rw [hrows]
      exact List.sorted_mergeSort
        (fun a b c hab hbc => skuLE_trans a.sku b.sku c.sku hab hbc)
        (fun a b => skuLE_total a.sku b.sku) _
    have hnd : (rows.map (·.sku)).Nodup := by
      rw [hrows]
      exact ((sorted_okRows_sku_perm _ _ _ _).nodup_iff).mpr
        (nodup_reportKeys (nodup_aggKeys_groupSum _) (nodup_aggKeys_groupSum _)
          (nodup_aggKeys_groupSum _) (nodup_aggKeys_groupSum _))
    by_contra hne
    have hj1 : j + 1 < rows.length := by omega
    have hle := List.pairwise_iff_getElem.mp hsorted j (j + 1) hj hj1 (by omega)
    rw [hnone] at hle
    have hnone1 : rows[j + 1].sku = none := skuLE_none_left hle
    have hlenj : j < (rows.map (·.sku)).length := by simpa using hj
    have hlenj1 : j + 1 < (rows.map (·.sku)).length := by simpa using hj1
    have hmapj : (rows.map (·.sku))[j] = none := by
      rw [List.getElem_map]
      exact hnone
    have hmapj1 : (rows.map (·.sku))[j + 1] = none := by
      rw [List.getElem_map]
      exact hnone1
    have : j = j + 1 := by
      refine (@List.Nodup.getElem_inj_iff _ (rows.map (·.sku)) hnd j hlenj (j + 1) hlenj1).mp ?_
      rw [hmapj, hmapj1]
    omega
  · intro hnonull r hr
    intro hcontra
    apply hnonull
    rw [← hmem none, ← hcontra]
    exact List.mem_map_of_mem (·.sku) hr

/-- C8: each aggregator, on a loaded table that has its key and value columns,
returns one output row per distinct observed key value with the value column
summed per key; null keys are kept as their own group; an empty input yields an
empty aggregate, not an error. -/
theorem C8_aggregator_contract (t : DataTable)
    (h1 : t.hasKey = true) (h2 : t.hasQty = true) :
    agg_goods_in t = .ok (groupSum t.rows) ∧
    agg_moved_to_production t = .ok (groupSum t.rows) ∧
    agg_inbound_from_production t = .ok (groupSum t.rows) ∧
    agg_shipments_out t = .ok (groupSum t.rows) ∧
    (aggKeys (groupSum t.rows)).Nodup ∧
    (∀ k, k ∈ aggKeys (groupSum t.rows) ↔ k ∈ t.rows.map (·.key)) ∧
    (∀ p ∈ groupSum t.rows, p.2 = fsum t.rows p.1) ∧
    agg_goods_in { hasKey := true, hasQty := true, rows := [] } = .ok [] := by
  refine ⟨agg_goods_in_ok h1 h2, agg_moved_to_production_ok h1 h2,
    agg_inbound_from_production_ok h1 h2, agg_shipments_out_ok h1 h2,
    nodup_aggKeys_groupSum t.rows, ?_, fun p hp => snd_of_mem_groupSum hp, ?_⟩
  · intro k
    rw [aggKeys_groupSum]
    exact mem_skuKeys
  · simp [agg_goods_in, groupSum, skuKeys]

/-- C6: the two-sheet loader projects each sheet with the same column set and
concatenates the frames without deduplication; a SKU present in both sheets
keeps both rows, so its aggregated `Inbound from Production` sums across the
sheets (packed quantities 3 and 5 yield 8). -/
theorem C6_two_sheet_concat (s1 s2 : RawTable) :
    (load_inbound_from_production [s1, s2]).rows =
      (project COL_SKU_PROD COL_QTY_PACKED_INBOUND s1).rows ++
      (project COL_SKU_PROD COL_QTY_PACKED_INBOUND s2).rows ∧
    agg_inbound_from_production (load_inbound_from_production
      [{ cols := [COL_SKU_PROD, COL_QTY_PACKED_INBOUND],
         rows := [{ key := some "Y2", qty := some 3 }] },
       { cols := [COL_SKU_PROD, COL_QTY_PACKED_INBOUND],
         rows := [{ key := some "Y2", qty := some 5 }] }]) =
      .ok [(some "Y2", 8)] := by
  constructor
  · simp [load_inbound_from_production]
  · simp [agg_inbound_from_production, load_inbound_from_production, project,
      groupSum, skuKeys, fsum, rqty]
    norm_num

lemma isOk_build_report (srcA srcB : RawTable) (srcCsheets : List RawTable) (srcD : RawTable) :
    isOk (build_report srcA srcB srcCsheets srcD) =
      ((load_inbound_order srcA).hasKey && (load_inbound_order srcA).hasQty &&
       (load_production_consolidated srcB).hasKey &&
       (load_production_consolidated srcB).hasQty &&
       (load_inbound_from_production srcCsheets).hasKey &&
       (load_inbound_from_production srcCsheets).hasQty &&
       (load_shipments_consolidated srcD).hasKey &&
       (load_shipments_consolidated srcD).hasQty) := by
  cases hA1 : (load_inbound_order srcA).hasKey <;>
  cases hA2 : (load_inbound_order srcA).hasQty <;>
  cases hB1 : (load_production_consolidated srcB).hasKey <;>
  cases hB2 : (load_production_consolidated srcB).hasQty <;>
  cases hC1 : (load_inbound_from_production srcCsheets).hasKey <;>
  cases hC2 : (load_inbound_from_production srcCsheets).hasQty <;>
  cases hD1 : (load_shipments_consolidated srcD).hasKey <;>
  cases hD2 : (load_shipments_consolidated srcD).hasQty <;>
  simp [build_report, agg_goods_in, agg_moved_to_production, agg_inbound_from_production,
    agg_shipments_out, isOk, hA1, hA2, hB1, hB2, hC1, hC2, hD1, hD2]

/-- C2 (counterexample): with source B lacking its quantity column
`QuantityProduced`, the run aborts with a `KeyError` instead of silently
omitting the metric — the claim's "the run does not fail" is false. -/
theorem C2_counterexample :
    isOk (build_report
      { cols := [COL_SKU_INBOUND, COL_QTY_RECEIVED], rows := [] }
      { cols := [COL_SKU_PROD], rows := [{ key := some "X", qty := some 4 }] }
      []
      { cols := [COL_SKU_PROD, COL_QTY_PACKED_SHIP], rows := [] }) = false := by
  rw [isOk_build_report]
  rfl

/-- C2 (amended): a successful run requires every needed column of every
source to have been present — a missing key or quantity column makes the
corresponding aggregation raise `KeyError` and aborts the whole run, rather
than omitting the metric; and a successful run always carries the full fixed
nine-column order, no column is ever dropped from it. -/
theorem C2_missing_column_aborts
    (srcA srcB : RawTable) (srcCsheets : List RawTable) (srcD : RawTable)
    (cols : List String) (rows : List ReportRow)
    (hok : build_report srcA srcB srcCsheets srcD = .ok (cols, rows)) :
    ((load_inbound_order srcA).hasKey = true ∧ (load_inbound_order srcA).hasQty = true ∧
     (load_production_consolidated srcB).hasKey = true ∧
     (load_production_consolidated srcB).hasQty = true ∧
     (load_inbound_from_production srcCsheets).hasKey = true ∧
     (load_inbound_from_production srcCsheets).hasQty = true ∧
     (load_shipments_consolidated srcD).hasKey = true ∧
     (load_shipments_consolidated srcD).hasQty = true) ∧
    cols = desired_cols := by
  have htrue : isOk (build_report srcA srcB srcCsheets srcD) = true := by
    rw [hok]
    rfl
  rw [isOk_build_report] at htrue
  simp only [Bool.and_eq_true] at htrue
  obtain ⟨⟨⟨⟨⟨⟨⟨fA1, fA2⟩, fB1⟩, fB2⟩, fC1⟩, fC2⟩, fD1⟩, fD2⟩ := htrue
  refine ⟨⟨fA1, fA2, fB1, fB2, fC1, fC2, fD1, fD2⟩, ?_⟩
  rw [build_report_eq srcA srcB srcCsheets srcD fA1 fA2 fB1 fB2 fC1 fC2 fD1 fD2] at hok
  exact (congrArg Prod.fst (Except.ok.inj hok)).symm

/-! ### Concrete example runs (spec §8 scenarios) used by the witnesses -/

/-- Example source A: SKU `X1` received quantity 10. -/
def exA : RawTable :=
  { cols := [COL_SKU_INBOUND, COL_QTY_RECEIVED], rows := [{ key := some "X1", qty := some 10 }] }

/-- Example source B: SKU `X1` produced quantity 4. -/
def exB : RawTable :=
  { cols := [COL_SKU_PROD, COL_QTY_PRODUCED], rows := [{ key := some "X1", qty := some 4 }] }

/-- Example source D with no rows. -/
def exD0 : RawTable := { cols := [COL_SKU_PROD, COL_QTY_PACKED_SHIP], rows := [] }

/-- Example source A with no rows. -/
def exA0 : RawTable := { cols := [COL_SKU_INBOUND, COL_QTY_RECEIVED], rows := [] }

/-- Example source B with no rows. -/
def exB0 : RawTable := { cols := [COL_SKU_PROD, COL_QTY_PRODUCED], rows := [] }

/-- Example source D: SKU `Z` shipped quantity 7 (spec scenario of negative
ending inventory). -/
def exDZ : RawTable :=
  { cols := [COL_SKU_PROD, COL_QTY_PACKED_SHIP], rows := [{ key := some "Z", qty := some 7 }] }

/-- Example source D: one row whose SKU cell is null, shipped quantity 1. -/
def exDN : RawTable :=
  { cols := [COL_SKU_PROD, COL_QTY_PACKED_SHIP], rows := [{ key := none, qty := some 1 }] }

/-- Example sheet of source C: SKU `W` packed quantity 5. -/
def exCW : RawTable :=
  { cols := [COL_SKU_PROD, COL_QTY_PACKED_INBOUND], rows := [{ key := some "W", qty := some 5 }] }

/-- Report row produced for `X1` from `exA`/`exB` (spec §8 scenario 1). -/
def exRowX1 : ReportRow :=
  { sku := some "X1", goodsIn := 10, movedToProduction := 4, inProduction := 4,
    inboundFromProduction := 0, shipmentsOut := 0, serialNo := none, variance := 0,
    inventoryUltimo := 10 }

/-- Report row produced for `Z` from `exDZ` (spec §8 scenario 2). -/
def exRowZ : ReportRow :=
  { sku := some "Z", goodsIn := 0, movedToProduction := 0, inProduction := 0,
    inboundFromProduction := 0, shipmentsOut := 7, serialNo := none, variance := 0,
    inventoryUltimo := -7 }

/-- Report row produced for the null-SKU group from `exDN`. -/
def exRowN : ReportRow :=
  { sku := none, goodsIn := 0, movedToProduction := 0, inProduction := 0,
    inboundFromProduction := 0, shipmentsOut := 1, serialNo := none, variance := 0,
    inventoryUltimo := -1 }

/-- Report row produced for `W` from `exCW` (work-in-progress goes negative). -/
def exRowW : ReportRow :=
  { sku := some "W", goodsIn := 0, movedToProduction := 0, inProduction := -5,
    inboundFromProduction := 5, shipmentsOut := 0, serialNo := none, variance := 0,
    inventoryUltimo := 5 }

lemma build_report_example1 :
    build_report exA exB [] exD0 = .ok (desired_cols, [exRowX1]) := by
  simp [build_report, exA, exB, exD0, load_inbound_order, load_production_consolidated,
    load_inbound_from_production, load_shipments_consolidated, project,
    agg_goods_in, agg_moved_to_production, agg_inbound_from_production, agg_shipments_out,
    groupSum, skuKeys, fsum, rqty, merge_gm, merge_gmi, merge_gmis, mlookup, deriveRow,
    exRowX1, desired_cols, preReorderCols, COL_SKU_INBOUND, COL_QTY_RECEIVED,
    COL_SKU_PROD, COL_QTY_PRODUCED, COL_QTY_PACKED_INBOUND, COL_QTY_PACKED_SHIP]

lemma final_report_example1 :
    final_report exA exB [] exD0 = .ok (desired_cols, [exRowX1]) := by
  rw [final_report, build_report_example1]
  simp

lemma final_report_example2 :
    final_report exA0 exB0 [] exDZ = .ok (desired_cols, [exRowZ]) := by
  have hb : build_report exA0 exB0 [] exDZ = .ok (desired_cols, [exRowZ]) := by
    simp [build_report, exA0, exB0, exDZ, load_inbound_order, load_production_consolidated,
      load_inbound_from_production, load_shipments_consolidated, project,
      agg_goods_in, agg_moved_to_production, agg_inbound_from_production, agg_shipments_out,
      groupSum, skuKeys, fsum, rqty, merge_gm, merge_gmi, merge_gmis, mlookup, deriveRow,
      exRowZ, desired_cols, preReorderCols, COL_SKU_INBOUND, COL_QTY_RECEIVED,
      COL_SKU_PROD, COL_QTY_PRODUCED, COL_QTY_PACKED_INBOUND, COL_QTY_PACKED_SHIP]
  rw [final_report, hb]
  simp

lemma final_report_example3 :
    final_report exA0 exB0 [] exDN = .ok (desired_cols, [exRowN]) := by
  have hb : build_report exA0 exB0 [] exDN = .ok (desired_cols, [exRowN]) := by
    simp [build_report, exA0, exB0, exDN, load_inbound_order, load_production_consolidated,
      load_inbound_from_production, load_shipments_consolidated, project,
      agg_goods_in, agg_moved_to_production, agg_inbound_from_production, agg_shipments_out,
      groupSum, skuKeys, fsum, rqty, merge_gm, merge_gmi, merge_gmis, mlookup, deriveRow,
      exRowN, desired_cols, preReorderCols, COL_SKU_INBOUND, COL_QTY_RECEIVED,
      COL_SKU_PROD, COL_QTY_PRODUCED, COL_QTY_PACKED_INBOUND, COL_QTY_PACKED_SHIP]
  rw [final_report, hb]
  simp

lemma final_report_example4 :
    final_report exA0 exB0 [exCW] exD0 = .ok (desired_cols, [exRowW]) := by
  have hb : build_report exA0 exB0 [exCW] exD0 = .ok (desired_cols, [exRowW]) := by
    simp [build_report, exA0, exB0, exCW, exD0, load_inbound_order,
      load_production_consolidated, load_inbound_from_production,
      load_shipments_consolidated, project, agg_goods_in, agg_moved_to_production,
      agg_inbound_from_production, agg_shipments_out, groupSum, skuKeys, fsum, rqty,
      merge_gm, merge_gmi, merge_gmis, mlookup, deriveRow, exRowW, desired_cols,
      preReorderCols, COL_SKU_INBOUND, COL_QTY_RECEIVED, COL_SKU_PROD, COL_QTY_PRODUCED,
      COL_QTY_PACKED_INBOUND, COL_QTY_PACKED_SHIP]
  rw [final_report, hb]
  simp

/-- Witness for C1: the spec §8 scenario (A: X1 qty 10, B: X1 qty 4, C and D
empty) runs to a report whose SKU column is duplicate-free. -/
theorem C1_report_is_union_of_skus_witness :
    (([exRowX1] : List ReportRow).map (·.sku)).Nodup :=
  (C1_report_is_union_of_skus exA exB [] exD0 (by decide) (by decide) (by decide) (by decide)
    (by simp) (by decide) (by decide) desired_cols [exRowX1] final_report_example1).1

/-- Witness for C3 at a concrete input where the work-in-progress value is
negative (C carries W qty 5, nothing else): the formula holds there. -/
theorem C3_in_production_formula_witness :
    exRowW.inProduction < 0 ∧
    exRowW.inProduction = exRowW.movedToProduction - exRowW.inboundFromProduction :=
  ⟨by norm_num [exRowW],
   C3_in_production_formula exA0 exB0 [exCW] exD0 (by decide) (by decide) (by decide)
     (by decide) (by decide) (by decide) (by decide) desired_cols [exRowW]
     final_report_example4 exRowW (by simp)⟩

/-- Witness for C4 at the spec's negative-inventory scenario (only D has a row,
SKU Z qty 7): ending inventory is −7 and the formula holds. -/
theorem C4_inventory_ultimo_formula_witness :
    exRowZ.inventoryUltimo < 0 ∧
    exRowZ.inventoryUltimo = exRowZ.goodsIn + exRowZ.inboundFromProduction - exRowZ.shipmentsOut :=
  ⟨by norm_num [exRowZ],
   C4_inventory_ultimo_formula exA0 exB0 [] exDZ (by decide) (by decide) (by decide)
     (by decide) (by simp) (by decide) (by decide) desired_cols [exRowZ]
     final_report_example2 exRowZ (by simp)⟩

/-- Witness for C5 at the spec §8 scenario: the X1 row's absent metric is
zero-filled and the `Serial no.` placeholder stays null. -/
theorem C5_fillna_only_metric_columns_witness :
    exRowX1.serialNo = none ∧ exRowX1.inboundFromProduction = 0 := by
  have h := C5_fillna_only_metric_columns exA exB [] exD0 (by decide) (by decide) (by decide)
    (by decide) (by simp) (by decide) (by decide) desired_cols [exRowX1]
    final_report_example1 exRowX1 (by simp)
  refine ⟨h.2.2.2.2.2.2.2.2, ?_⟩
  apply h.2.2.2.2.1
  simp [load_inbound_from_production, groupSum, skuKeys, aggKeys]

/-- Witness for C7 at the spec §8 scenario: the Goods In column of the report
sums to the raw received quantities of source A. -/
theorem C7_mass_preservation_witness :
    (([exRowX1] : List ReportRow).map (·.goodsIn)).sum = (exA.rows.map rqty).sum :=
  (C7_mass_preservation exA exB [] exD0 (by decide) (by decide) (by decide) (by decide)
    (by simp) (by decide) (by decide) desired_cols [exRowX1] final_report_example1).1

/-- Witness for C9 at the spec §8 scenario: the produced column list is the
fixed nine-column order. -/
theorem C9_sort_and_column_order_witness :
    desired_cols = ["SKU", "Goods In", "Moved to Production", "In Production",
      "Inbound from Production", "Shipments Out", "Serial no.",
      "Variance", "Inventory ULTIMO"] :=
  (C9_sort_and_column_order exA exB [] exD0 (by decide) (by decide) (by decide) (by decide)
    (by simp) (by decide) (by decide) desired_cols [exRowX1] final_report_example1).1

/-- Witness for C10 at an input whose only row has a null SKU cell: the report
contains the null-SKU group's row. -/
theorem C10_null_key_group_last_witness :
    none ∈ ([exRowN] : List ReportRow).map (·.sku) := by
  have h := C10_null_key_group_last exA0 exB0 [] exDN (by decide) (by decide) (by decide)
    (by decide) (by simp) (by decide) (by decide) desired_cols [exRowN] final_report_example3
  exact h.1.mpr (by
    simp [load_inbound_order, load_production_consolidated, load_inbound_from_production,
      load_shipments_consolidated, project, exA0, exB0, exDN])

/-- A one-row loaded table used by the C8 witness. -/
def exLoadedK : DataTable :=
  { hasKey := true, hasQty := true, rows := [{ key := some "K", qty := some 2 }] }

/-- Witness for C8 at a one-row table. -/
theorem C8_aggregator_contract_witness :
    agg_goods_in exLoadedK = .ok (groupSum exLoadedK.rows) :=
  (C8_aggregator_contract exLoadedK rfl rfl).1

/-- Witness for the amended C2 at a successful concrete run: every needed
column was present. -/
theorem C2_missing_column_aborts_witness :
    (load_inbound_order exA).hasKey = true :=
  (C2_missing_column_aborts exA exB [] exD0 desired_cols [exRowX1] build_report_example1).1.1
